import Mathlib

/-!
Shallow embedding of the valuation core of `getmyhousevalue-frontend`
(`src/src/App.jsx`; `src/unnamed/part_000` is a byte-identical copy of the
first variant of that file).

The repository contains two variants of the same component, concatenated in
`App.jsx`:

* variant A (lines 9-63): sparse HPI table, `calculateValuation` with a
  default sold year of 2015 when `lastSoldDate` is absent, a
  `lastSoldPrice > 0` guard, no chart series; region classification in
  `getPostcodeDetails` (two independent `if` statements).
* variant B (lines 290-365): dense HPI table (every year 2000-2024),
  `calculateValuation` with no default for an absent date
  (`new Date(undefined).getFullYear()` is `NaN`), no price guard, a
  `chartData` series field and an echoed `regionKey` field; region
  classification in `getRegionForPostcode` (early-return `if` chain).

Modelling conventions:

* JavaScript numbers are modelled as exact rationals (`ℚ`); all constants in
  the source are decimal literals that are exact in `ℚ`.
* `Math.round x` is `⌊x + 1/2⌋` (JS rounds half away from zero towards +∞ for
  the non-negative values arising here).
* the JS expression `x || d` on numbers is `jsOr`: it yields `d` when `x` is
  `undefined` (modelled `none`) or `0` (both are falsy).
* a date string is abstracted to the calendar year `getFullYear()` extracts
  from it; an absent date is `none`.  In variant B, `getFullYear()` of an
  absent date is `NaN`; that sold year is modelled as `none`, an object lookup
  keyed by it misses, and a `>=` comparison against it is `false`, exactly as
  `NaN` behaves in JS.
* a JS object with integer-like keys enumerates its keys in ascending numeric
  order (`Object.keys`); the tables are therefore association lists sorted by
  ascending year.
-/

/-- JS `x || d` for a possibly-undefined number `x`: both `undefined` and `0`
are falsy and select the fallback `d`. -/
def jsOr (x : Option ℚ) (d : ℚ) : ℚ :=
  match x with
  | none => d
  | some v => if v = 0 then d else v

/-- JS `Math.round`: round half towards positive infinity. -/
def jsRound (x : ℚ) : ℤ :=
  Int.floor (x + 1 / 2)

/-- Does the list of characters `s` start with the list `pat`? -/
def charsStartWith : List Char → List Char → Bool
  | _, [] => true
  | [], _ :: _ => false
  | a :: as, b :: bs => a == b && charsStartWith as bs

/-- Does the list of characters `s` contain `pat` as a contiguous run?  This is
JS `String.prototype.includes` on the underlying character lists. -/
def charsIncl : List Char → List Char → Bool
  | [], pat => pat.isEmpty
  | s@(_ :: rest), pat => charsStartWith s pat || charsIncl rest pat

/-- JS `s.includes(pat)`. -/
def strIncl (s pat : String) : Bool :=
  charsIncl s.data pat.data

/-- JS truthiness of a possibly-undefined string: `undefined` and `""` are
falsy. -/
def jsTruthy (x : Option String) : Bool :=
  match x with
  | none => false
  | some s => !(s == "")

/-- Variant A HPI table for "London" (App.jsx line 10). -/
def HPI_LONDON : List (Nat × ℚ) :=
  [(2000, 38.2), (2010, 85.2), (2015, 100.0), (2020, 120.5), (2024, 130.5)]

/-- Variant A HPI table for "South East" (App.jsx line 11). -/
def HPI_SOUTH_EAST : List (Nat × ℚ) :=
  [(2000, 42.1), (2010, 84.1), (2015, 100.0), (2020, 121.5), (2024, 138.2)]

/-- Variant A HPI table for "UK Average" (App.jsx line 12). -/
def HPI_UK_AVERAGE : List (Nat × ℚ) :=
  [(2000, 43.5), (2010, 84.5), (2015, 100.0), (2020, 122.5), (2024, 143.2)]

/-- Variant A `HPI_DATA[regionKey]`: `none` models an absent object key. -/
def HPI_DATA (regionKey : String) : Option (List (Nat × ℚ)) :=
  if regionKey = "London" then some HPI_LONDON
  else if regionKey = "South East" then some HPI_SOUTH_EAST
  else if regionKey = "UK Average" then some HPI_UK_AVERAGE
  else none

/-- Variant B HPI table for "London" (App.jsx lines 291-295). -/
def HPI_LONDON_FULL : List (Nat × ℚ) :=
  [(2000, 38.2), (2001, 42.5), (2002, 49.8), (2003, 54.1), (2004, 60.2),
   (2005, 63.5), (2006, 69.8), (2007, 84.2), (2008, 82.1), (2009, 76.5),
   (2010, 85.2), (2011, 86.1), (2012, 90.3), (2013, 98.5), (2014, 115.2),
   (2015, 100.0), (2016, 112.5), (2017, 116.8), (2018, 115.9), (2019, 114.8),
   (2020, 120.5), (2021, 126.2), (2022, 134.5), (2023, 131.2), (2024, 130.5)]

/-- Variant B HPI table for "South East" (App.jsx lines 296-300). -/
def HPI_SOUTH_EAST_FULL : List (Nat × ℚ) :=
  [(2000, 42.1), (2001, 47.5), (2002, 56.8), (2003, 64.2), (2004, 70.1),
   (2005, 72.5), (2006, 76.8), (2007, 85.2), (2008, 83.5), (2009, 75.2),
   (2010, 84.1), (2011, 83.5), (2012, 85.2), (2013, 88.5), (2014, 96.2),
   (2015, 100.0), (2016, 110.5), (2017, 115.2), (2018, 116.5), (2019, 115.8),
   (2020, 121.5), (2021, 132.2), (2022, 142.5), (2023, 139.5), (2024, 138.2)]

/-- Variant B HPI table for "UK Average" (App.jsx lines 301-305). -/
def HPI_UK_AVERAGE_FULL : List (Nat × ℚ) :=
  [(2000, 43.5), (2001, 47.8), (2002, 56.2), (2003, 66.8), (2004, 75.2),
   (2005, 78.5), (2006, 82.8), (2007, 90.2), (2008, 88.5), (2009, 78.2),
   (2010, 84.5), (2011, 83.2), (2012, 84.5), (2013, 87.8), (2014, 94.5),
   (2015, 100.0), (2016, 107.5), (2017, 112.2), (2018, 115.5), (2019, 116.8),
   (2020, 122.5), (2021, 134.2), (2022, 145.5), (2023, 142.5), (2024, 143.2)]

/-- Variant B `HPI_DATA[regionKey]`. -/
def HPI_DATA_FULL (regionKey : String) : Option (List (Nat × ℚ)) :=
  if regionKey = "London" then some HPI_LONDON_FULL
  else if regionKey = "South East" then some HPI_SOUTH_EAST_FULL
  else if regionKey = "UK Average" then some HPI_UK_AVERAGE_FULL
  else none

/-- Object lookup `table[year]` on a year-keyed table: `none` models
`undefined`. -/
def lookupYear (t : List (Nat × ℚ)) (y : Nat) : Option ℚ :=
  (t.find? (fun q => q.1 == y)).map (fun q => q.2)

/-- Variant A `HPI_DATA[regionKey] || HPI_DATA["UK Average"]`
(App.jsx line 46). -/
def effTable (regionKey : String) : List (Nat × ℚ) :=
  (HPI_DATA regionKey).getD HPI_UK_AVERAGE

/-- Variant B `HPI_DATA[regionKey] || HPI_DATA["UK Average"]`
(App.jsx line 346). -/
def effTableFull (regionKey : String) : List (Nat × ℚ) :=
  (HPI_DATA_FULL regionKey).getD HPI_UK_AVERAGE_FULL

/-- The sold-year index lookup of App.jsx line 49
(`indexData[soldYear] || 100`), abstracted over the year.  This is the
`indexFor(region, year)` contract of the spec for variant A's table. -/
def indexFor (regionKey : String) (year : Nat) : ℚ :=
  jsOr (lookupYear (effTable regionKey) year) 100

/-- The sold-year index lookup of App.jsx line 347, over variant B's table. -/
def indexForFull (regionKey : String) (year : Nat) : ℚ :=
  jsOr (lookupYear (effTableFull regionKey) year) 100

/-- The current-year index lookup of App.jsx line 50
(`indexData[currentYear] || 143.2`), abstracted over the year: note its
fallback constant is `143.2`, not `100`. -/
def indexNewLookup (regionKey : String) (year : Nat) : ℚ :=
  jsOr (lookupYear (effTable regionKey) year) 143.2

/-- One property record (§3 of the spec; object shape of `MOCK_PROPERTIES`).
`lastSoldDate` is abstracted to the calendar year of the date string, `none`
when the field is absent.  `lastSoldPrice` is a non-negative integer, `0`
meaning "no sale price known". -/
structure PropertyRecord where
  id : String
  address : String
  city : String
  postcode : String
  propertyType : String
  sqMeters : ℚ
  epc : String
  lastSoldDate : Option Nat
  lastSoldPrice : Nat
deriving DecidableEq

/-- Result of variant A's `calculateValuation` (App.jsx lines 57-62). -/
structure ValuationResult where
  estimatedValue : ℤ
  lowerBound : ℤ
  upperBound : ℤ
  growthFactor : ℚ
deriving DecidableEq

/-- Result of variant B's `calculateValuation` (App.jsx line 364), which also
returns the chart series and echoes the requested region key. -/
structure ValuationResultFull where
  estimatedValue : ℤ
  lowerBound : ℤ
  upperBound : ℤ
  growthFactor : ℚ
  chartData : List (Nat × ℚ × ℤ)
  regionKey : String
deriving DecidableEq

/-- Variant A `calculateValuation` (App.jsx lines 43-63, identically
`src/unnamed/part_000` lines 43-63).  The ternary
`property.lastSoldDate ? new Date(...).getFullYear() : 2015` becomes
`Option.getD _ 2015`; the ternary on `lastSoldPrice > 0` becomes the `if`. -/
def calculateValuation (property : PropertyRecord) (regionKey : String) :
    ValuationResult :=
  let soldYear := property.lastSoldDate.getD 2015
  let currentYear := 2024
  let indexData := effTable regionKey
  let indexOld := jsOr (lookupYear indexData soldYear) 100
  let indexNew := jsOr (lookupYear indexData currentYear) 143.2
  let growthFactor := indexNew / indexOld
  let estimatedValue : ℤ :=
    if 0 < property.lastSoldPrice then
      jsRound ((property.lastSoldPrice : ℚ) * growthFactor)
    else 0
  { estimatedValue := estimatedValue,
    lowerBound := jsRound ((estimatedValue : ℚ) * 0.95),
    upperBound := jsRound ((estimatedValue : ℚ) * 1.05),
    growthFactor := growthFactor }

/-- The sold year variant B uses (App.jsx line 343):
`new Date(property.lastSoldDate).getFullYear()` with no default, which is
`NaN` (here `none`) when the date is absent. -/
def soldYearOf (property : PropertyRecord) : Option Nat :=
  property.lastSoldDate

/-- The chart filter predicate `year >= soldYear` of App.jsx line 357: a JS
comparison against `NaN` (an absent sold year) is `false`. -/
def jsGeYear (y : Nat) (soldYear : Option Nat) : Bool :=
  match soldYear with
  | none => false
  | some s => decide (s ≤ y)

/-- Variant B `calculateValuation` (App.jsx lines 342-365).  `chartData`
iterates the table keys in ascending year order (`Object.keys` order for
integer-like keys), keeps the years `>= soldYear`, and emits
`(year, index, round(lastSoldPrice * (index / indexOld)))`. -/
def calculateValuationFull (property : PropertyRecord) (regionKey : String) :
    ValuationResultFull :=
  let soldYear := soldYearOf property
  let currentYear := 2024
  let indexData := effTableFull regionKey
  let indexOld := jsOr (soldYear.bind (lookupYear indexData)) 100
  let indexNew := jsOr (lookupYear indexData currentYear) 143.2
  let growthFactor := indexNew / indexOld
  let estimatedValue := jsRound ((property.lastSoldPrice : ℚ) * growthFactor)
  let lowerBound := jsRound ((estimatedValue : ℚ) * 0.95)
  let upperBound := jsRound ((estimatedValue : ℚ) * 1.05)
  let chartData :=
    (indexData.filter (fun q => jsGeYear q.1 soldYear)).map
      (fun q => (q.1, q.2, jsRound ((property.lastSoldPrice : ℚ) * (q.2 / indexOld))))
  { estimatedValue := estimatedValue,
    lowerBound := lowerBound,
    upperBound := upperBound,
    growthFactor := growthFactor,
    chartData := chartData,
    regionKey := regionKey }

/-- The region-classification core of `getPostcodeDetails` (App.jsx lines
25-29, variant A): a default assignment followed by two INDEPENDENT `if`
statements, so a later match overwrites an earlier one.  The input is the
`data.result.region || data.result.admin_district` string, `none` when both
are absent. -/
def regionKeyOfDetails (region : Option String) : String :=
  let regionKey := "UK Average"
  let regionKey :=
    if jsTruthy region && strIncl (region.getD "") "London" then "London"
    else regionKey
  let regionKey :=
    if jsTruthy region && strIncl (region.getD "") "South East" then "South East"
    else regionKey
  regionKey

/-- The region-classification core of `getRegionForPostcode` (App.jsx lines
320-323, variant B): an early-return `if` chain, so the FIRST match wins. -/
def regionForPostcode (region : Option String) : String :=
  if jsTruthy region && strIncl (region.getD "") "London" then "London"
  else if jsTruthy region && strIncl (region.getD "") "South East" then "South East"
  else "UK Average"

/-- The UI's unavailability marker (App.jsx line 252 renders "Valuation
Unavailable" exactly when `estimatedValue > 0` is false). -/
def markedUnavailable (r : ValuationResult) : Bool :=
  !(decide (0 < r.estimatedValue))

/-- The first record of `MOCK_PROPERTIES` (App.jsx line 16): 10 Downing
Street, sold 2005-06-15 for 4,500,000. -/
def mockProperty : PropertyRecord :=
  { id := "1", address := "10 Downing Street", city := "London",
    postcode := "SW1A 1AA", propertyType := "Terraced", sqMeters := 240,
    epc := "C", lastSoldDate := some 2005, lastSoldPrice := 4500000 }

/-- A record with no sale date, as produced by a registry source without
transaction data. -/
def noDateProperty : PropertyRecord :=
  { id := "2", address := "1 Test Lane", city := "London",
    postcode := "SW1A 1AA", propertyType := "Flat", sqMeters := 80,
    epc := "D", lastSoldDate := none, lastSoldPrice := 300000 }

/-- The same record as `noDateProperty` but dated at the base year 2015. -/
def baseYearProperty : PropertyRecord :=
  { id := "2", address := "1 Test Lane", city := "London",
    postcode := "SW1A 1AA", propertyType := "Flat", sqMeters := 80,
    epc := "D", lastSoldDate := some 2015, lastSoldPrice := 300000 }

/-- A record with a sale date but no known sale price (EPC-only record). -/
def zeroPriceProperty : PropertyRecord :=
  { id := "3", address := "2 Test Lane", city := "London",
    postcode := "SW1A 1AA", propertyType := "Flat", sqMeters := 60,
    epc := "E", lastSoldDate := some 2005, lastSoldPrice := 0 }

/-! Helper lemmas about the embedding. -/

/-- The JS fallback `x || d` never yields `0` when `d` is nonzero. -/
theorem jsOr_ne_zero (x : Option ℚ) (d : ℚ) (hd : d ≠ 0) : jsOr x d ≠ 0 := by
  cases x with
  | none => exact hd
  | some v =>
    by_cases hv : v = 0
    · simpa [jsOr, hv] using hd
    · simp [jsOr, hv]

/-- The JS fallback is positive when the default is positive and any stored
value is positive. -/
theorem jsOr_pos (x : Option ℚ) (d : ℚ) (hd : 0 < d)
    (hx : ∀ v, x = some v → 0 < v) : 0 < jsOr x d := by
  cases x with
  | none => exact hd
  | some v =>
    have hv := hx v rfl
    by_cases h0 : v = 0
    · simpa [jsOr, h0] using hd
    · simpa [jsOr, h0] using hv

/-- A present nonzero value is returned unchanged by the fallback. -/
theorem jsOr_some (v d : ℚ) (hv : v ≠ 0) : jsOr (some v) d = v := by
  simp [jsOr, hv]

/-- Variant A's effective table is always one of the three stored tables. -/
theorem effTable_cases (rk : String) :
    effTable rk = HPI_LONDON ∨ effTable rk = HPI_SOUTH_EAST ∨
      effTable rk = HPI_UK_AVERAGE := by
  unfold effTable HPI_DATA
  by_cases h1 : rk = "London"
  · simp [h1]
  · by_cases h2 : rk = "South East"
    · simp [h1, h2]
    · by_cases h3 : rk = "UK Average"
      · simp [h1, h2, h3]
      · simp [h1, h2, h3]

/-- Variant B's effective table is always one of the three stored tables. -/
theorem effTableFull_cases (rk : String) :
    effTableFull rk = HPI_LONDON_FULL ∨ effTableFull rk = HPI_SOUTH_EAST_FULL ∨
      effTableFull rk = HPI_UK_AVERAGE_FULL := by
  unfold effTableFull HPI_DATA_FULL
  by_cases h1 : rk = "London"
  · simp [h1]
  · by_cases h2 : rk = "South East"
    · simp [h1, h2]
    · by_cases h3 : rk = "UK Average"
      · simp [h1, h2, h3]
      · simp [h1, h2, h3]

/-- Every value stored in the "London" table of variant A is positive. -/
theorem hpiLondonPos : ∀ q ∈ HPI_LONDON, 0 < q.2 := by
  intro q hq
  fin_cases hq <;> norm_num

/-- Every value stored in the "South East" table of variant A is positive. -/
theorem hpiSouthEastPos : ∀ q ∈ HPI_SOUTH_EAST, 0 < q.2 := by
  intro q hq
  fin_cases hq <;> norm_num

/-- Every value stored in the "UK Average" table of variant A is positive. -/
theorem hpiUkAveragePos : ∀ q ∈ HPI_UK_AVERAGE, 0 < q.2 := by
  intro q hq
  fin_cases hq <;> norm_num

/-- Every value stored in the "London" table of variant B is positive. -/
theorem hpiLondonFullPos : ∀ q ∈ HPI_LONDON_FULL, 0 < q.2 := by
  intro q hq
  fin_cases hq <;> norm_num

/-- Every value stored in the "South East" table of variant B is positive. -/
theorem hpiSouthEastFullPos : ∀ q ∈ HPI_SOUTH_EAST_FULL, 0 < q.2 := by
  intro q hq
  fin_cases hq <;> norm_num

/-- Every value stored in the "UK Average" table of variant B is positive. -/
theorem hpiUkAverageFullPos : ∀ q ∈ HPI_UK_AVERAGE_FULL, 0 < q.2 := by
  intro q hq
  fin_cases hq <;> norm_num

/-- Every value stored in variant A's effective table is strictly positive. -/
theorem effTable_pos (rk : String) : ∀ q ∈ effTable rk, 0 < q.2 := by
  rcases effTable_cases rk with h | h | h <;> rw [h]
  · exact hpiLondonPos
  · exact hpiSouthEastPos
  · exact hpiUkAveragePos

/-- Every value stored in variant B's effective table is strictly positive. -/
theorem effTableFull_pos (rk : String) : ∀ q ∈ effTableFull rk, 0 < q.2 := by
  rcases effTableFull_cases rk with h | h | h <;> rw [h]
  · exact hpiLondonFullPos
  · exact hpiSouthEastFullPos
  · exact hpiUkAverageFullPos

/-- A successful year lookup returns a stored pair of the table. -/
theorem mem_of_lookupYear {t : List (Nat × ℚ)} {y : Nat} {v : ℚ}
    (h : lookupYear t y = some v) : (y, v) ∈ t := by
  unfold lookupYear at h
  cases hf : t.find? (fun q => q.1 == y) with
  | none => rw [hf] at h; simp at h
  | some q =>
    rw [hf] at h
    simp at h
    have hq := List.find?_some hf
    have hm : q ∈ t := List.mem_of_find?_eq_some hf
    have h1 : q.1 = y := by simpa using hq
    have h2 : q.2 = v := h
    have : q = (y, v) := by
      cases q
      simp_all
    rwa [this] at hm

/-- In a table whose keys are strictly increasing, a stored pair is found by
lookup. -/
theorem lookupYear_of_mem {t : List (Nat × ℚ)}
    (hs : t.Pairwise (fun a b => a.1 < b.1)) {y : Nat} {v : ℚ}
    (hm : (y, v) ∈ t) : lookupYear t y = some v := by
  induction t with
  | nil => simp at hm
  | cons a tl ih =>
    rcases List.mem_cons.mp hm with h | h
    · rw [← h]
      simp [lookupYear, List.find?]
    · have ha : a.1 ≠ y := by
        have := (List.pairwise_cons.mp hs).1 (y, v) h
        exact Nat.ne_of_lt this
      have hrec := ih (List.pairwise_cons.mp hs).2 h
      unfold lookupYear at hrec ⊢
      rw [List.find?_cons_of_neg]
      · exact hrec
      · simp [ha]

/-- Values found in variant A's effective table are positive. -/
theorem lookupYear_effTable_pos (rk : String) (y : Nat) (v : ℚ)
    (h : lookupYear (effTable rk) y = some v) : 0 < v :=
  effTable_pos rk _ (mem_of_lookupYear h)

/-- Values found in variant B's effective table are positive. -/
theorem lookupYear_effTableFull_pos (rk : String) (y : Nat) (v : ℚ)
    (h : lookupYear (effTableFull rk) y = some v) : 0 < v :=
  effTableFull_pos rk _ (mem_of_lookupYear h)

/-- The year 2024 is present in every effective variant A table. -/
theorem lookup2024 (rk : String) :
    ∃ v, lookupYear (effTable rk) 2024 = some v ∧ 0 < v := by
  rcases effTable_cases rk with h | h | h <;> rw [h]
  · exact ⟨130.5, by simp [lookupYear, HPI_LONDON, List.find?], by norm_num⟩
  · exact ⟨138.2, by simp [lookupYear, HPI_SOUTH_EAST, List.find?], by norm_num⟩
  · exact ⟨143.2, by simp [lookupYear, HPI_UK_AVERAGE, List.find?], by norm_num⟩

/-- The year 2024 is present in every effective variant B table. -/
theorem lookup2024Full (rk : String) :
    ∃ v, lookupYear (effTableFull rk) 2024 = some v ∧ 0 < v := by
  rcases effTableFull_cases rk with h | h | h <;> rw [h]
  · exact ⟨130.5, by simp [lookupYear, HPI_LONDON_FULL, List.find?], by norm_num⟩
  · exact ⟨138.2, by simp [lookupYear, HPI_SOUTH_EAST_FULL, List.find?], by norm_num⟩
  · exact ⟨143.2, by simp [lookupYear, HPI_UK_AVERAGE_FULL, List.find?], by norm_num⟩

/-- The base year 2015 has the stored index `100.0` in every effective
variant A table. -/
theorem lookup2015 (rk : String) : lookupYear (effTable rk) 2015 = some 100 := by
  rcases effTable_cases rk with h | h | h <;> rw [h] <;>
    simp [lookupYear, HPI_LONDON, HPI_SOUTH_EAST, HPI_UK_AVERAGE, List.find?] <;>
    norm_num

/-- Because 2024 is always present, the current-year lookup of line 50 (with
its `143.2` fallback) agrees with the spec's `indexFor` (with its `100`
fallback) at the current year. -/
theorem indexNew_eq_indexFor (rk : String) :
    jsOr (lookupYear (effTable rk) 2024) 143.2 = indexFor rk 2024 := by
  obtain ⟨v, hv, hvpos⟩ := lookup2024 rk
  unfold indexFor
  rw [hv, jsOr_some _ _ (ne_of_gt hvpos), jsOr_some _ _ (ne_of_gt hvpos)]

/-- Variant B analogue of `indexNew_eq_indexFor`. -/
theorem indexNewFull_eq_indexForFull (rk : String) :
    jsOr (lookupYear (effTableFull rk) 2024) 143.2 = indexForFull rk 2024 := by
  obtain ⟨v, hv, hvpos⟩ := lookup2024Full rk
  unfold indexForFull
  rw [hv, jsOr_some _ _ (ne_of_gt hvpos), jsOr_some _ _ (ne_of_gt hvpos)]

/-- The spec's `indexFor` is strictly positive everywhere (variant A). -/
theorem indexFor_pos (rk : String) (y : Nat) : 0 < indexFor rk y :=
  jsOr_pos _ _ (by norm_num) (fun v hv => lookupYear_effTable_pos rk y v hv)

/-- The spec's `indexFor` is strictly positive everywhere (variant B). -/
theorem indexForFull_pos (rk : String) (y : Nat) : 0 < indexForFull rk y :=
  jsOr_pos _ _ (by norm_num) (fun v hv => lookupYear_effTableFull_pos rk y v hv)

/-- Rounding is monotone enough: `round(e * 0.95) ≤ e` for non-negative
integers `e`. -/
theorem jsRound_mul95_le (e : ℤ) (he : 0 ≤ e) : jsRound ((e : ℚ) * 0.95) ≤ e := by
  unfold jsRound
  have hc : (0:ℚ) ≤ (e:ℚ) := by exact_mod_cast he
  have h95 : (0.95 : ℚ) = 19 / 20 := by norm_num
  have : (e : ℚ) * 0.95 + 1 / 2 < ((e + 1 : ℤ) : ℚ) := by
    rw [h95]
    push_cast
    linarith
  have hlt := Int.floor_lt.mpr this
  omega

/-- Rounding is monotone enough: `e ≤ round(e * 1.05)` for non-negative
integers `e`. -/
theorem le_jsRound_mul105 (e : ℤ) (he : 0 ≤ e) : e ≤ jsRound ((e : ℚ) * 1.05) := by
  unfold jsRound
  apply Int.le_floor.mpr
  have hc : (0:ℚ) ≤ (e:ℚ) := by exact_mod_cast he
  have h105 : (1.05 : ℚ) = 21 / 20 := by norm_num
  rw [h105]
  linarith

/-- Rounding a non-negative rational gives a non-negative integer. -/
theorem jsRound_nonneg (x : ℚ) (hx : 0 ≤ x) : 0 ≤ jsRound x := by
  unfold jsRound
  apply Int.le_floor.mpr
  have h0 : (0:ℚ) ≤ x + 1 / 2 := by linarith
  exact_mod_cast h0

/-- A string containing a nonempty pattern is itself nonempty. -/
theorem ne_empty_of_strIncl {s pat : String} (h : strIncl s pat = true)
    (hp : pat.data ≠ []) : s ≠ "" := by
  intro hs
  subst hs
  unfold strIncl charsIncl at h
  cases hd : pat.data with
  | nil => exact hp hd
  | cons a l =>
    rw [hd] at h
    simp at h

/-- The growth factor computed by variant A is strictly positive. -/
theorem growthFactor_posA (p : PropertyRecord) (rk : String) :
    0 < (calculateValuation p rk).growthFactor := by
  show 0 < jsOr (lookupYear (effTable rk) 2024) 143.2 /
      jsOr (lookupYear (effTable rk) (p.lastSoldDate.getD 2015)) 100
  apply div_pos
  · exact jsOr_pos _ _ (by norm_num) (fun v hv => lookupYear_effTable_pos rk _ v hv)
  · exact jsOr_pos _ _ (by norm_num) (fun v hv => lookupYear_effTable_pos rk _ v hv)

/-- The growth factor computed by variant B is strictly positive. -/
theorem growthFactor_posFull (p : PropertyRecord) (rk : String) :
    0 < (calculateValuationFull p rk).growthFactor := by
  show 0 < jsOr (lookupYear (effTableFull rk) 2024) 143.2 /
      jsOr ((soldYearOf p).bind (lookupYear (effTableFull rk))) 100
  apply div_pos
  · exact jsOr_pos _ _ (by norm_num) (fun v hv => lookupYear_effTableFull_pos rk _ v hv)
  · apply jsOr_pos _ _ (by norm_num)
    intro v hv
    cases hb : soldYearOf p with
    | none => rw [hb] at hv; simp at hv
    | some s =>
      rw [hb] at hv
      simp at hv
      exact lookupYear_effTableFull_pos rk s v hv

/-- Variant A's estimated value is never negative. -/
theorem estimatedValue_nonnegA (p : PropertyRecord) (rk : String) :
    0 ≤ (calculateValuation p rk).estimatedValue := by
  by_cases hp : 0 < p.lastSoldPrice
  · have hgf := growthFactor_posA p rk
    have he : (calculateValuation p rk).estimatedValue =
        jsRound ((p.lastSoldPrice : ℚ) * (calculateValuation p rk).growthFactor) := by
      simp [calculateValuation, hp]
    rw [he]
    exact jsRound_nonneg _ (mul_nonneg (Nat.cast_nonneg _) (le_of_lt hgf))
  · have he : (calculateValuation p rk).estimatedValue = 0 := by
      simp [calculateValuation, hp]
    rw [he]

/-- Variant B's estimated value is never negative. -/
theorem estimatedValue_nonnegFull (p : PropertyRecord) (rk : String) :
    0 ≤ (calculateValuationFull p rk).estimatedValue := by
  have hgf := growthFactor_posFull p rk
  have he : (calculateValuationFull p rk).estimatedValue =
      jsRound ((p.lastSoldPrice : ℚ) * (calculateValuationFull p rk).growthFactor) := rfl
  rw [he]
  exact jsRound_nonneg _ (mul_nonneg (Nat.cast_nonneg _) (le_of_lt hgf))

/-- The variant B tables are sorted by strictly increasing year. -/
theorem effTableFull_sorted (rk : String) :
    (effTableFull rk).Pairwise (fun a b => a.1 < b.1) := by
  rcases effTableFull_cases rk with h | h | h <;> rw [h] <;> decide

/-- With a present sold year, variant B's chart series is the table filtered
to the years from the sold year on, with the value column rescaled by
`index / indexOld`. -/
theorem chartData_eq (p : PropertyRecord) (rk : String) (s : Nat)
    (hy : p.lastSoldDate = some s) :
    (calculateValuationFull p rk).chartData =
      ((effTableFull rk).filter (fun q => decide (s ≤ q.1))).map
        (fun q => (q.1, q.2,
          jsRound ((p.lastSoldPrice : ℚ) * (q.2 / indexForFull rk s)))) := by
  have hsy : soldYearOf p = some s := hy
  show ((effTableFull rk).filter (fun q => jsGeYear q.1 (soldYearOf p))).map _ = _
  rw [hsy]
  rfl

/-! Claim theorems. -/

/-- C1: for every property with a positive last sale price and every region
key, the growth factor is `indexFor(region, currentYear) / indexFor(region,
soldYear)`, the estimate is `round(lastSoldPrice * growthFactor)`, and the
divisor is nonzero.  The first three conjuncts settle variant A (where
`soldYear` is the date's year or the 2015 default); the final conjunct
settles variant B for any present sold date. -/
theorem C1_growth_and_estimate (p : PropertyRecord) (rk : String)
    (hp : 0 < p.lastSoldPrice) :
    (calculateValuation p rk).growthFactor =
      indexFor rk 2024 / indexFor rk (p.lastSoldDate.getD 2015) ∧
    (calculateValuation p rk).estimatedValue =
      jsRound ((p.lastSoldPrice : ℚ) * (calculateValuation p rk).growthFactor) ∧
    indexFor rk (p.lastSoldDate.getD 2015) ≠ 0 ∧
    ∀ y, p.lastSoldDate = some y →
      (calculateValuationFull p rk).growthFactor =
        indexForFull rk 2024 / indexForFull rk y ∧
      (calculateValuationFull p rk).estimatedValue =
        jsRound ((p.lastSoldPrice : ℚ) * (calculateValuationFull p rk).growthFactor) ∧
      indexForFull rk y ≠ 0 := by
  refine ⟨?_, ?_, ?_, ?_⟩
  · show jsOr (lookupYear (effTable rk) 2024) 143.2 /
        jsOr (lookupYear (effTable rk) (p.lastSoldDate.getD 2015)) 100 = _
    rw [indexNew_eq_indexFor]
    rfl
  · simp [calculateValuation, hp]
  · exact jsOr_ne_zero _ _ (by norm_num)
  · intro y hy
    refine ⟨?_, rfl, jsOr_ne_zero _ _ (by norm_num)⟩
    show jsOr (lookupYear (effTableFull rk) 2024) 143.2 /
        jsOr ((soldYearOf p).bind (lookupYear (effTableFull rk))) 100 = _
    rw [indexNewFull_eq_indexForFull]
    have hsy : soldYearOf p = some y := hy
    rw [hsy]
    rfl

/-- Witness for C1: the mock property (sold 2005 for 4,500,000) in region
"London". -/
theorem C1_growth_and_estimate_witness :
    0 < mockProperty.lastSoldPrice ∧
    (calculateValuation mockProperty "London").growthFactor =
      indexFor "London" 2024 /
        indexFor "London" (mockProperty.lastSoldDate.getD 2015) :=
  ⟨by decide, (C1_growth_and_estimate mockProperty "London" (by decide)).1⟩

/-- C2: with a zero last sale price the estimate is 0, the result is marked
unavailable (the UI's `estimatedValue > 0` test fails), the growth factor is
still computed from the index lookups, and both bounds are 0. -/
theorem C2_zero_price_unavailable (p : PropertyRecord) (rk : String)
    (hp : p.lastSoldPrice = 0) :
    (calculateValuation p rk).estimatedValue = 0 ∧
    markedUnavailable (calculateValuation p rk) = true ∧
    (calculateValuation p rk).growthFactor =
      indexFor rk 2024 / indexFor rk (p.lastSoldDate.getD 2015) ∧
    (calculateValuation p rk).lowerBound = 0 ∧
    (calculateValuation p rk).upperBound = 0 := by
  have he : (calculateValuation p rk).estimatedValue = 0 := by
    simp [calculateValuation, hp]
  have hlow : (calculateValuation p rk).lowerBound =
      jsRound (((calculateValuation p rk).estimatedValue : ℚ) * 0.95) := rfl
  have hup : (calculateValuation p rk).upperBound =
      jsRound (((calculateValuation p rk).estimatedValue : ℚ) * 1.05) := rfl
  refine ⟨he, ?_, ?_, ?_, ?_⟩
  · simp [markedUnavailable, he]
  · show jsOr (lookupYear (effTable rk) 2024) 143.2 / _ = _
    rw [indexNew_eq_indexFor]
    rfl
  · rw [hlow, he]
    norm_num [jsRound]
  · rw [hup, he]
    norm_num [jsRound]

/-- Witness for C2: the EPC-only record with price 0 in region "London". -/
theorem C2_zero_price_unavailable_witness :
    zeroPriceProperty.lastSoldPrice = 0 ∧
    (calculateValuation zeroPriceProperty "London").estimatedValue = 0 ∧
    markedUnavailable (calculateValuation zeroPriceProperty "London") = true ∧
    (calculateValuation zeroPriceProperty "London").growthFactor =
      indexFor "London" 2024 /
        indexFor "London" (zeroPriceProperty.lastSoldDate.getD 2015) ∧
    (calculateValuation zeroPriceProperty "London").lowerBound = 0 ∧
    (calculateValuation zeroPriceProperty "London").upperBound = 0 :=
  ⟨rfl, C2_zero_price_unavailable zeroPriceProperty "London" rfl⟩

/-- C9: totality.  Both variants are total functions of their inputs; the
division's denominator is never zero (so no division blow-up can occur), the
growth factor is a well-defined positive rational, and the estimate and both
bounds are well-defined non-negative integers, for EVERY property record and
EVERY region string. -/
theorem C9_totality (p : PropertyRecord) (rk : String) :
    jsOr (lookupYear (effTable rk) (p.lastSoldDate.getD 2015)) 100 ≠ 0 ∧
    0 < (calculateValuation p rk).growthFactor ∧
    0 ≤ (calculateValuation p rk).estimatedValue ∧
    0 ≤ (calculateValuation p rk).lowerBound ∧
    0 ≤ (calculateValuation p rk).upperBound ∧
    jsOr ((soldYearOf p).bind (lookupYear (effTableFull rk))) 100 ≠ 0 ∧
    0 < (calculateValuationFull p rk).growthFactor ∧
    0 ≤ (calculateValuationFull p rk).estimatedValue ∧
    0 ≤ (calculateValuationFull p rk).lowerBound ∧
    0 ≤ (calculateValuationFull p rk).upperBound := by
  have heA := estimatedValue_nonnegA p rk
  have heB := estimatedValue_nonnegFull p rk
  have hcA : (0:ℚ) ≤ ((calculateValuation p rk).estimatedValue : ℚ) := by
    exact_mod_cast heA
  have hcB : (0:ℚ) ≤ ((calculateValuationFull p rk).estimatedValue : ℚ) := by
    exact_mod_cast heB
  refine ⟨jsOr_ne_zero _ _ (by norm_num), growthFactor_posA p rk, heA, ?_, ?_,
    jsOr_ne_zero _ _ (by norm_num), growthFactor_posFull p rk, heB, ?_, ?_⟩
  · have hl : (calculateValuation p rk).lowerBound =
        jsRound (((calculateValuation p rk).estimatedValue : ℚ) * 0.95) := rfl
    rw [hl]
    exact jsRound_nonneg _ (mul_nonneg hcA (by norm_num))
  · have hu : (calculateValuation p rk).upperBound =
        jsRound (((calculateValuation p rk).estimatedValue : ℚ) * 1.05) := rfl
    rw [hu]
    exact jsRound_nonneg _ (mul_nonneg hcA (by norm_num))
  · have hl : (calculateValuationFull p rk).lowerBound =
        jsRound (((calculateValuationFull p rk).estimatedValue : ℚ) * 0.95) := rfl
    rw [hl]
    exact jsRound_nonneg _ (mul_nonneg hcB (by norm_num))
  · have hu : (calculateValuationFull p rk).upperBound =
        jsRound (((calculateValuationFull p rk).estimatedValue : ℚ) * 1.05) := rfl
    rw [hu]
    exact jsRound_nonneg _ (mul_nonneg hcB (by norm_num))

/-- C10: the growth factor returned by both variants is strictly positive for
every input, because every stored index value and both fallback constants
(`100` and `143.2`) are strictly positive. -/
theorem C10_growth_factor_pos (p : PropertyRecord) (rk : String) :
    0 < (calculateValuation p rk).growthFactor ∧
    0 < (calculateValuationFull p rk).growthFactor :=
  ⟨growthFactor_posA p rk, growthFactor_posFull p rk⟩

/-- C3, counterexample: the claim says the current-year lookup also falls back
to `100.0` for an absent year, but the fallback constant at that lookup site
(App.jsx line 50) is `143.2`: at the absent year 1999 it yields `143.2`,
not `100`. -/
theorem C3_current_year_fallback_cex :
    lookupYear (effTable "London") 1999 = none ∧
    indexNewLookup "London" 1999 = 143.2 ∧
    (143.2 : ℚ) ≠ 100 := by
  have h : lookupYear (effTable "London") 1999 = none := by decide
  refine ⟨h, ?_, by norm_num⟩
  show jsOr (lookupYear (effTable "London") 1999) 143.2 = 143.2
  rw [h]
  rfl

/-- C3, amended: the sold-year lookup (both variants) falls back to `100.0`
for a year absent from the effective table; the current-year lookup's fallback
constant is `143.2`, but it never fires, because the fixed current year 2024
is stored in every region's table, so that lookup always returns the stored
2024 value (which is also what the spec's `indexFor` returns there). -/
theorem C3_fallback_amended (rk : String) (y : Nat)
    (hA : lookupYear (effTable rk) y = none)
    (hB : lookupYear (effTableFull rk) y = none) :
    indexFor rk y = 100 ∧ indexForFull rk y = 100 ∧
    ∃ v, lookupYear (effTable rk) 2024 = some v ∧
      indexNewLookup rk 2024 = v ∧ indexFor rk 2024 = v := by
  refine ⟨?_, ?_, ?_⟩
  · unfold indexFor
    rw [hA]
    rfl
  · unfold indexForFull
    rw [hB]
    rfl
  · obtain ⟨v, hv, hvpos⟩ := lookup2024 rk
    refine ⟨v, hv, ?_, ?_⟩
    · unfold indexNewLookup
      rw [hv]
      exact jsOr_some _ _ (ne_of_gt hvpos)
    · unfold indexFor
      rw [hv]
      exact jsOr_some _ _ (ne_of_gt hvpos)

/-- Witness for the amended C3 at the unknown region "Narnia" and the absent
year 1999. -/
theorem C3_fallback_amended_witness :
    (lookupYear (effTable "Narnia") 1999 = none ∧
     lookupYear (effTableFull "Narnia") 1999 = none) ∧
    (indexFor "Narnia" 1999 = 100 ∧ indexForFull "Narnia" 1999 = 100 ∧
     ∃ v, lookupYear (effTable "Narnia") 2024 = some v ∧
       indexNewLookup "Narnia" 2024 = v ∧ indexFor "Narnia" 2024 = v) :=
  ⟨⟨by decide, by decide⟩,
   C3_fallback_amended "Narnia" 1999 (by decide) (by decide)⟩

/-- C4, counterexample: for a label containing both "London" and "South East",
`getPostcodeDetails` (variant A) returns "South East" — its two `if`
statements are independent, so the LAST matching rule wins, not the first as
the claim states.  `getRegionForPostcode` (variant B) does return "London". -/
theorem C4_last_rule_wins_cex :
    strIncl "South East London" "London" = true ∧
    strIncl "South East London" "South East" = true ∧
    regionKeyOfDetails (some "South East London") = "South East" ∧
    regionKeyOfDetails (some "South East London") ≠ "London" ∧
    regionForPostcode (some "South East London") = "London" :=
  ⟨by decide, by decide, by decide, by decide, by decide⟩

/-- C4, amended: both classifiers are total; absent labels and labels matching
neither substring yield "UK Average"; a label matching exactly one substring
yields that region in both; for a label containing both substrings the two
variants disagree: `getPostcodeDetails` yields "South East" (last matching
rule wins) while `getRegionForPostcode` yields "London" (first matching rule
wins). -/
theorem C4_classify_amended (s : String) :
    (regionKeyOfDetails none = "UK Average" ∧
     regionForPostcode none = "UK Average") ∧
    (strIncl s "London" = false → strIncl s "South East" = false →
      regionKeyOfDetails (some s) = "UK Average" ∧
      regionForPostcode (some s) = "UK Average") ∧
    (strIncl s "London" = true → strIncl s "South East" = false →
      regionKeyOfDetails (some s) = "London" ∧
      regionForPostcode (some s) = "London") ∧
    (strIncl s "London" = false → strIncl s "South East" = true →
      regionKeyOfDetails (some s) = "South East" ∧
      regionForPostcode (some s) = "South East") ∧
    (strIncl s "London" = true → strIncl s "South East" = true →
      regionKeyOfDetails (some s) = "South East" ∧
      regionForPostcode (some s) = "London") := by
  have hcl : ("London" : String).data ≠ [] := by decide
  have hcs : ("South East" : String).data ≠ [] := by decide
  refine ⟨⟨rfl, rfl⟩, ?_, ?_, ?_, ?_⟩
  · intro h1 h2
    constructor <;> simp [regionKeyOfDetails, regionForPostcode, h1, h2]
  · intro h1 h2
    have hs : s ≠ "" := ne_empty_of_strIncl h1 hcl
    have ht : jsTruthy (some s) = true := by
      simp [jsTruthy, hs]
    constructor <;> simp [regionKeyOfDetails, regionForPostcode, h1, h2, ht]
  · intro h1 h2
    have hs : s ≠ "" := ne_empty_of_strIncl h2 hcs
    have ht : jsTruthy (some s) = true := by
      simp [jsTruthy, hs]
    constructor <;> simp [regionKeyOfDetails, regionForPostcode, h1, h2, ht]
  · intro h1 h2
    have hs : s ≠ "" := ne_empty_of_strIncl h1 hcl
    have ht : jsTruthy (some s) = true := by
      simp [jsTruthy, hs]
    constructor <;> simp [regionKeyOfDetails, regionForPostcode, h1, h2, ht]

/-- Witness for the amended C4 at the label "South East Coast", which matches
only the "South East" rule: both classifiers return "South East". -/
theorem C4_classify_amended_witness :
    strIncl "South East Coast" "London" = false ∧
    strIncl "South East Coast" "South East" = true ∧
    (regionKeyOfDetails (some "South East Coast") = "South East" ∧
     regionForPostcode (some "South East Coast") = "South East") :=
  ⟨by decide, by decide,
   (C4_classify_amended "South East Coast").2.2.2.1 (by decide) (by decide)⟩

/-- C5, counterexample: in variant B an absent sold date does NOT default to
the base year 2015 — the sold year is `NaN` (here `none`), observably: the
chart series comes out empty, whereas the same record dated at the base year
2015 yields a non-empty series. -/
theorem C5_nan_sold_year_cex :
    noDateProperty.lastSoldDate = none ∧
    soldYearOf noDateProperty ≠ some 2015 ∧
    (calculateValuationFull noDateProperty "London").chartData = [] ∧
    (calculateValuationFull baseYearProperty "London").chartData ≠ [] := by
  refine ⟨rfl, by decide, by decide, ?_⟩
  intro h
  have hlen : (calculateValuationFull baseYearProperty "London").chartData.length
      = 10 := by decide
  rw [h] at hlen
  simp at hlen

/-- C5, amended: for an absent sold date, variant A uses the base year 2015 as
sold year, while variant B uses no year at all (`NaN`); in BOTH variants the
old index resolves to `100.0` (the stored base-year value in A, the fallback
in B), so the growth factor equals `indexFor(region, currentYear) / 100`. -/
theorem C5_absent_date_amended (p : PropertyRecord) (rk : String)
    (h : p.lastSoldDate = none) :
    p.lastSoldDate.getD 2015 = 2015 ∧
    (calculateValuation p rk).growthFactor = indexFor rk 2024 / 100 ∧
    soldYearOf p = none ∧
    (calculateValuationFull p rk).growthFactor = indexForFull rk 2024 / 100 := by
  have hsy : soldYearOf p = none := h
  refine ⟨by simp [h], ?_, hsy, ?_⟩
  · show jsOr (lookupYear (effTable rk) 2024) 143.2 /
        jsOr (lookupYear (effTable rk) (p.lastSoldDate.getD 2015)) 100 = _
    rw [indexNew_eq_indexFor, h, Option.getD_none, lookup2015 rk,
      jsOr_some _ _ (by norm_num : (100:ℚ) ≠ 0)]
  · show jsOr (lookupYear (effTableFull rk) 2024) 143.2 /
        jsOr ((soldYearOf p).bind (lookupYear (effTableFull rk))) 100 = _
    rw [indexNewFull_eq_indexForFull, hsy]
    rfl

/-- Witness for the amended C5 at the undated record in region "UK Average". -/
theorem C5_absent_date_amended_witness :
    noDateProperty.lastSoldDate = none ∧
    (noDateProperty.lastSoldDate.getD 2015 = 2015 ∧
     (calculateValuation noDateProperty "UK Average").growthFactor =
       indexFor "UK Average" 2024 / 100 ∧
     soldYearOf noDateProperty = none ∧
     (calculateValuationFull noDateProperty "UK Average").growthFactor =
       indexForFull "UK Average" 2024 / 100) :=
  ⟨rfl, C5_absent_date_amended noDateProperty "UK Average" rfl⟩

/-- C6: in both variants the bounds are exactly `round(0.95 * estimatedValue)`
and `round(1.05 * estimatedValue)`, and whenever the estimate is positive it
lies between them. -/
theorem C6_bounds_exact_and_ordered (p : PropertyRecord) (rk : String) :
    (calculateValuation p rk).lowerBound =
      jsRound (0.95 * ((calculateValuation p rk).estimatedValue : ℚ)) ∧
    (calculateValuation p rk).upperBound =
      jsRound (1.05 * ((calculateValuation p rk).estimatedValue : ℚ)) ∧
    (0 < (calculateValuation p rk).estimatedValue →
      (calculateValuation p rk).lowerBound ≤
        (calculateValuation p rk).estimatedValue ∧
      (calculateValuation p rk).estimatedValue ≤
        (calculateValuation p rk).upperBound) ∧
    (calculateValuationFull p rk).lowerBound =
      jsRound (0.95 * ((calculateValuationFull p rk).estimatedValue : ℚ)) ∧
    (calculateValuationFull p rk).upperBound =
      jsRound (1.05 * ((calculateValuationFull p rk).estimatedValue : ℚ)) ∧
    (0 < (calculateValuationFull p rk).estimatedValue →
      (calculateValuationFull p rk).lowerBound ≤
        (calculateValuationFull p rk).estimatedValue ∧
      (calculateValuationFull p rk).estimatedValue ≤
        (calculateValuationFull p rk).upperBound) := by
  refine ⟨by rw [mul_comm]; exact rfl, by rw [mul_comm]; exact rfl, ?_,
    by rw [mul_comm]; exact rfl, by rw [mul_comm]; exact rfl, ?_⟩
  · intro hpos
    exact ⟨jsRound_mul95_le _ (le_of_lt hpos), le_jsRound_mul105 _ (le_of_lt hpos)⟩
  · intro hpos
    exact ⟨jsRound_mul95_le _ (le_of_lt hpos), le_jsRound_mul105 _ (le_of_lt hpos)⟩

/-- Witness for C6 at the mock property in region "London" (the spec's worked
example: estimate 5,872,500 with bounds 5,578,875 and 6,166,125). -/
theorem C6_bounds_witness :
    0 < (calculateValuation mockProperty "London").estimatedValue ∧
    ((calculateValuation mockProperty "London").lowerBound ≤
       (calculateValuation mockProperty "London").estimatedValue ∧
     (calculateValuation mockProperty "London").estimatedValue ≤
       (calculateValuation mockProperty "London").upperBound) := by
  have hpos : (calculateValuation mockProperty "London").estimatedValue = 5872500 := by
    show (if 0 < mockProperty.lastSoldPrice then
        jsRound ((mockProperty.lastSoldPrice : ℚ) *
          (jsOr (lookupYear (effTable "London") 2024) 143.2 /
           jsOr (lookupYear (effTable "London")
             (mockProperty.lastSoldDate.getD 2015)) 100))
      else 0) = 5872500
    rw [if_pos (by decide : 0 < mockProperty.lastSoldPrice)]
    have h1 : lookupYear (effTable "London") 2024 = some 130.5 := by
      simp [lookupYear, effTable, HPI_DATA, HPI_LONDON, List.find?]
    have h2 : lookupYear (effTable "London")
        (mockProperty.lastSoldDate.getD 2015) = none := by decide
    rw [h1, h2, jsOr_some _ _ (by norm_num : (130.5:ℚ) ≠ 0)]
    show jsRound ((4500000 : ℚ) * (130.5 / 100)) = 5872500
    unfold jsRound
    norm_num
  exact ⟨by rw [hpos]; norm_num,
    (C6_bounds_exact_and_ordered mockProperty "London").2.2.1
      (by rw [hpos]; norm_num)⟩

/-- C7, counterexample: for an unknown region, variant B's result is NOT equal
to the result for "UK Average" — the echoed `regionKey` field preserves the
requested key. -/
theorem C7_region_echo_cex :
    HPI_DATA_FULL "Lincolnshire" = none ∧
    (calculateValuationFull mockProperty "Lincolnshire").regionKey =
      "Lincolnshire" ∧
    calculateValuationFull mockProperty "Lincolnshire" ≠
      calculateValuationFull mockProperty "UK Average" := by
  refine ⟨by decide, rfl, ?_⟩
  intro hEq
  have h2 : ("Lincolnshire" : String) = "UK Average" :=
    congrArg ValuationResultFull.regionKey hEq
  exact absurd h2 (by decide)

/-- C7, amended: for a region key not stored in the HPI table, all index
lookups use "UK Average"'s table.  Variant A's full result equals the result
for "UK Average"; in variant B every field except the echoed `regionKey`
(estimate, bounds, growth factor, chart series) equals the "UK Average"
result, while `regionKey` echoes the requested key. -/
theorem C7_unknown_region_amended (p : PropertyRecord) (rk : String)
    (h : HPI_DATA rk = none) :
    calculateValuation p rk = calculateValuation p "UK Average" ∧
    (calculateValuationFull p rk).estimatedValue =
      (calculateValuationFull p "UK Average").estimatedValue ∧
    (calculateValuationFull p rk).lowerBound =
      (calculateValuationFull p "UK Average").lowerBound ∧
    (calculateValuationFull p rk).upperBound =
      (calculateValuationFull p "UK Average").upperBound ∧
    (calculateValuationFull p rk).growthFactor =
      (calculateValuationFull p "UK Average").growthFactor ∧
    (calculateValuationFull p rk).chartData =
      (calculateValuationFull p "UK Average").chartData ∧
    (calculateValuationFull p rk).regionKey = rk := by
  have h1 : rk ≠ "London" := by
    intro he
    rw [he] at h
    simp [HPI_DATA] at h
  have h2 : rk ≠ "South East" := by
    intro he
    rw [he] at h
    simp [HPI_DATA] at h
  have h3 : rk ≠ "UK Average" := by
    intro he
    rw [he] at h
    simp [HPI_DATA] at h
  have hF : HPI_DATA_FULL rk = none := by
    simp [HPI_DATA_FULL, h1, h2, h3]
  have hUK : HPI_DATA "UK Average" = some HPI_UK_AVERAGE := by
    simp [HPI_DATA]
  have hUKF : HPI_DATA_FULL "UK Average" = some HPI_UK_AVERAGE_FULL := by
    simp [HPI_DATA_FULL]
  have htA : effTable rk = effTable "UK Average" := by
    unfold effTable
    rw [h, hUK]
    exact rfl
  have htF : effTableFull rk = effTableFull "UK Average" := by
    unfold effTableFull
    rw [hF, hUKF]
    exact rfl
  refine ⟨?_, ?_, ?_, ?_, ?_, ?_, rfl⟩
  · unfold calculateValuation
    rw [htA]
  · show (calculateValuationFull p rk).estimatedValue = _
    unfold calculateValuationFull
    rw [htF]
  · show (calculateValuationFull p rk).lowerBound = _
    unfold calculateValuationFull
    rw [htF]
  · show (calculateValuationFull p rk).upperBound = _
    unfold calculateValuationFull
    rw [htF]
  · show (calculateValuationFull p rk).growthFactor = _
    unfold calculateValuationFull
    rw [htF]
  · show (calculateValuationFull p rk).chartData = _
    unfold calculateValuationFull
    rw [htF]

/-- Witness for the amended C7 at the unknown region "Lincolnshire". -/
theorem C7_unknown_region_amended_witness :
    HPI_DATA "Lincolnshire" = none ∧
    (calculateValuation mockProperty "Lincolnshire" =
       calculateValuation mockProperty "UK Average" ∧
     (calculateValuationFull mockProperty "Lincolnshire").estimatedValue =
       (calculateValuationFull mockProperty "UK Average").estimatedValue ∧
     (calculateValuationFull mockProperty "Lincolnshire").lowerBound =
       (calculateValuationFull mockProperty "UK Average").lowerBound ∧
     (calculateValuationFull mockProperty "Lincolnshire").upperBound =
       (calculateValuationFull mockProperty "UK Average").upperBound ∧
     (calculateValuationFull mockProperty "Lincolnshire").growthFactor =
       (calculateValuationFull mockProperty "UK Average").growthFactor ∧
     (calculateValuationFull mockProperty "Lincolnshire").chartData =
       (calculateValuationFull mockProperty "UK Average").chartData ∧
     (calculateValuationFull mockProperty "Lincolnshire").regionKey =
       "Lincolnshire") :=
  ⟨by decide, C7_unknown_region_amended mockProperty "Lincolnshire" (by decide)⟩

/-- C8, counterexample: variant B produces the chart series even when there is
no usable sale price — for a record with `lastSoldPrice = 0` and sold year
2005 in "London", the series has 20 entries (so it is produced), contradicting
the claim that it is produced only when a usable sale price exists. -/
theorem C8_zero_price_series_cex :
    zeroPriceProperty.lastSoldPrice = 0 ∧
    (calculateValuationFull zeroPriceProperty "London").chartData.length = 20 ∧
    (calculateValuationFull zeroPriceProperty "London").chartData ≠ [] := by
  have hlen :
      (calculateValuationFull zeroPriceProperty "London").chartData.length
        = 20 := by decide
  refine ⟨rfl, hlen, ?_⟩
  intro hnil
  rw [hnil] at hlen
  simp at hlen

/-- C8, amended: the chart series is produced unconditionally; it is empty
when the sold year is absent (`NaN`), and the sale price is NOT checked (a
zero price yields a series of zero values).  With a present sold year `s`, the
series contains exactly one entry `(y, index, round(lastSoldPrice * (index /
indexOld)))` for every table year `y ≥ s`, ordered by strictly ascending year
and finite. -/
theorem C8_series_amended (p : PropertyRecord) (rk : String) :
    (p.lastSoldDate = none → (calculateValuationFull p rk).chartData = []) ∧
    ∀ s, p.lastSoldDate = some s →
      (∀ y idx v, ((y, idx, v) ∈ (calculateValuationFull p rk).chartData ↔
        lookupYear (effTableFull rk) y = some idx ∧ s ≤ y ∧
        v = jsRound ((p.lastSoldPrice : ℚ) * (idx / indexForFull rk s)))) ∧
      List.Pairwise (fun a b => a.1 < b.1)
        (calculateValuationFull p rk).chartData := by
  constructor
  · intro h
    have hsy : soldYearOf p = none := h
    show ((effTableFull rk).filter (fun q => jsGeYear q.1 (soldYearOf p))).map _
        = []
    rw [hsy]
    simp [jsGeYear]
  · intro s hy
    have hsort := effTableFull_sorted rk
    constructor
    · intro y idx v
      rw [chartData_eq p rk s hy]
      constructor
      · intro hmem
        rw [List.mem_map] at hmem
        obtain ⟨q, hq, hfq⟩ := hmem
        rw [List.mem_filter] at hq
        obtain ⟨hqT, hpred⟩ := hq
        obtain ⟨qy, qv⟩ := q
        simp only [Prod.mk.injEq] at hfq
        obtain ⟨hq1, hq2, hq3⟩ := hfq
        subst hq1
        subst hq2
        refine ⟨lookupYear_of_mem hsort hqT, ?_, hq3.symm⟩
        simpa using hpred
      · rintro ⟨hlook, hsy2, hv⟩
        rw [List.mem_map]
        refine ⟨(y, idx), List.mem_filter.mpr ⟨mem_of_lookupYear hlook, ?_⟩, ?_⟩
        · simpa using hsy2
        · simp [hv]
    · rw [chartData_eq p rk s hy]
      refine List.pairwise_map.mpr ?_
      exact List.Pairwise.filter _ hsort

/-- Witness for the amended C8: the undated record yields an empty series. -/
theorem C8_series_amended_witness :
    noDateProperty.lastSoldDate = none ∧
    (calculateValuationFull noDateProperty "London").chartData = [] :=
  ⟨rfl, (C8_series_amended noDateProperty "London").1 rfl⟩
